import Mathlib

/-!
Verification of the MyPCOS diagnostic evaluator and report assembler.

The definitions below are a shallow embedding of the Python source:
`app.py` (Rotterdam-criteria evaluation, HOMA-IR, alerts, progress-log
auto-save) and `generate_pdf.py` (report flow assembly).  Machine floats
of the source are modelled as rationals; Python `round(x, 2)` and the
`:.2f` format are modelled with round-half-to-even on rationals.
-/

namespace MyPCOS

/-- Round-half-to-even of a rational to an integer, as Python `round` and
string formatting do on exactly representable values. -/
def roundHalfEven (x : ℚ) : ℤ :=
  let f : ℤ := ⌊x⌋
  let r : ℚ := x - (f : ℚ)
  if r < 1/2 then f
  else if 1/2 < r then f + 1
  else if f % 2 = 0 then f else f + 1

/-- Python `round(x, 2)`: round to two decimal places, ties to even. -/
def pythonRound2 (x : ℚ) : ℚ :=
  (roundHalfEven (x * 100) : ℚ) / 100

/-- Patient input record: the fields of `app.py` that feed the diagnostic
logic, the auto-save row and the alerts.  Selectbox values are the literal
strings of the widgets; numeric widgets are rationals. -/
structure PatientInput where
  name : String
  age : ℚ
  weight : ℚ
  height : ℚ
  irregular_cycles : String
  cycle_frequency : ℤ
  prolonged_bleeding : String
  acne : Bool
  hirsutism : Bool
  alopecia : Bool
  pcos_ovaries : String
  total_testosterone : ℚ
  dheas : ℚ
  fasting_glucose : ℚ
  fasting_insulin : ℚ
  tsh : ℚ
deriving DecidableEq

/-- `app.py`: `criteria["Oligo/anovulation"] = (irregular_cycles == "Yes" or cycle_frequency < 9)`. -/
def oligoAnovulation (p : PatientInput) : Bool :=
  p.irregular_cycles == "Yes" || decide (p.cycle_frequency < 9)

/-- `app.py`: `criteria["Hyperandrogenism"] = (acne or hirsutism or alopecia or total_testosterone > 50 or dheas > 350)`. -/
def hyperandrogenism (p : PatientInput) : Bool :=
  p.acne || p.hirsutism || p.alopecia
    || decide (p.total_testosterone > 50) || decide (p.dheas > 350)

/-- `app.py`: `criteria["Polycystic ovaries"] = (pcos_ovaries == "Yes")`. -/
def polycysticOvaries (p : PatientInput) : Bool :=
  p.pcos_ovaries == "Yes"

/-- The criteria dict of `app.py`, as an ordered association list. -/
def criteria (p : PatientInput) : List (String × Bool) :=
  [("Oligo/anovulation", oligoAnovulation p),
   ("Hyperandrogenism", hyperandrogenism p),
   ("Polycystic ovaries", polycysticOvaries p)]

/-- `num_positive = sum(criteria.values())`. -/
def numPositive (p : PatientInput) : ℕ :=
  (oligoAnovulation p).toNat + (hyperandrogenism p).toNat + (polycysticOvaries p).toNat

/-- The diagnosis string set by the `num_positive >= 2` branch of `app.py`. -/
def diagnosis (p : PatientInput) : String :=
  if numPositive p ≥ 2 then "PCOS Likely" else "PCOS Unlikely"

/-- The phenotype chain on the three criterion booleans, in the branch
order of `app.py` (`all` / O∧H / H∧P / O∧P / else). -/
def phenotypeOf (o h pc : Bool) : String :=
  if o && h && pc then "Phenotype A"
  else if o && h then "Phenotype B"
  else if h && pc then "Phenotype C"
  else if o && pc then "Phenotype D"
  else "Unclassified"

/-- The phenotype string of `app.py`: the priority chain when
`num_positive >= 2`, else `"Not applicable"`. -/
def phenotype (p : PatientInput) : String :=
  if numPositive p ≥ 2 then
    phenotypeOf (oligoAnovulation p) (hyperandrogenism p) (polycysticOvaries p)
  else "Not applicable"

/-- `app.py`: `homa_ir = round((fasting_glucose * fasting_insulin) / 405, 2) if fasting_insulin else 0.0`. -/
def homaIr (fasting_glucose fasting_insulin : ℚ) : ℚ :=
  if fasting_insulin ≠ 0 then pythonRound2 (fasting_glucose * fasting_insulin / 405)
  else 0

/-- The derived HOMA-IR of a patient record. -/
def homaIrOf (p : PatientInput) : ℚ :=
  homaIr p.fasting_glucose p.fasting_insulin

def insulinAlert : String := "Insulin resistance (HOMA-IR > 2.5)"

def tshAlert : String := "Elevated TSH — consider thyroid evaluation"

def hyperandrogenismAlert : String :=
  "Possible biochemical hyperandrogenism — consider repeat/confirmatory testing"

/-- The alerts list of `app.py`: three independent threshold checks,
appended in this fixed order. -/
def alerts (p : PatientInput) : List String :=
  (if homaIrOf p > 5/2 then [insulinAlert] else [])
    ++ (if p.tsh > 4 then [tshAlert] else [])
    ++ (if p.total_testosterone > 70 ∨ p.dheas > 350 then [hyperandrogenismAlert] else [])

/-! ## Progress-log auto-save (`app.py`) -/

/-- One row of `progress_tracker.csv`. -/
structure ProgressRow where
  date : String
  name : String
  weight : ℚ
  bmi : ℚ
  cycle_length : ℤ
  homa_ir : ℚ
  tsh : ℚ
deriving DecidableEq

/-- The auto-save block of `app.py`: guarded by `if name and weight:`
(Python truthiness: non-empty name and non-zero weight), it removes rows
with the same `(Date, Name)` key and appends the new row.  When the guard
fails the block is skipped entirely — nothing is written and nothing is
signaled. -/
def autoSaveLog (today name : String) (weight bmi : ℚ) (cyc : ℤ) (homa tsh : ℚ)
    (log : List ProgressRow) : List ProgressRow :=
  if name ≠ "" ∧ weight ≠ 0 then
    (log.filter fun r => !(r.date == today && r.name == name))
      ++ [⟨today, name, weight, bmi, cyc, homa, tsh⟩]
  else log

/-- Modelled from the spec: §4.2/§7 describe a Progress Store write whose
one checked precondition is a non-empty `identity.name`, an empty name
being "signaled to the caller as a precondition violation".  No such
signaling exists in the source (`app.py` silently guards the write), so
the spec's words are modelled here for comparison with `autoSaveLog`. -/
def progressWriteChecked (today name : String) (weight bmi : ℚ) (cyc : ℤ) (homa tsh : ℚ)
    (log : List ProgressRow) : Except String (List ProgressRow) :=
  if name = "" then Except.error "precondition violation: empty identity name"
  else Except.ok
    ((log.filter fun r => !(r.date == today && r.name == name))
      ++ [⟨today, name, weight, bmi, cyc, homa, tsh⟩])

/-! ## Report assembler (`generate_pdf.py`)

`create_pdf_report` builds an ordered flowable list.  Python dates are
modelled as day counts since 1970-01-01; `strftime` is reimplemented for
the two formats the source uses.  `str.lower().startswith(...)` is
embedded structurally because the source guards the Rotterdam sentence
with it. -/

def pad2 (n : ℕ) : String := if n < 10 then "0" ++ toString n else toString n

/-- Gregorian calendar conversion (days since 1970-01-01 to year, month,
day), the standard civil-from-days algorithm restricted to non-negative
epoch days. -/
def civilFromDays (z : ℕ) : ℕ × ℕ × ℕ :=
  let w := z + 719468
  let era := w / 146097
  let doe := w % 146097
  let yoe := (doe - doe / 1460 + doe / 36524 - doe / 146096) / 365
  let y := yoe + era * 400
  let doy := doe - (365 * yoe + yoe / 4 - yoe / 100)
  let mp := (5 * doy + 2) / 153
  let d := doy - (153 * mp + 2) / 5 + 1
  let m := if mp < 10 then mp + 3 else mp - 9
  (if m ≤ 2 then y + 1 else y, m, d)

def monthName : ℕ → String
  | 1 => "January" | 2 => "February" | 3 => "March" | 4 => "April"
  | 5 => "May" | 6 => "June" | 7 => "July" | 8 => "August"
  | 9 => "September" | 10 => "October" | 11 => "November" | 12 => "December"
  | _ => ""

def monthAbbrev : ℕ → String
  | 1 => "Jan" | 2 => "Feb" | 3 => "Mar" | 4 => "Apr" | 5 => "May" | 6 => "Jun"
  | 7 => "Jul" | 8 => "Aug" | 9 => "Sep" | 10 => "Oct" | 11 => "Nov" | 12 => "Dec"
  | _ => ""

/-- Python `date.strftime("%B %d, %Y")`, as used for the report date. -/
def fmtLongDate (z : ℕ) : String :=
  match civilFromDays z with
  | (y, m, d) => monthName m ++ " " ++ pad2 d ++ ", " ++ toString y

/-- Python `date.strftime("%b %d, %Y")`, as used for the follow-up date. -/
def fmtShortDate (z : ℕ) : String :=
  match civilFromDays z with
  | (y, m, d) => monthAbbrev m ++ " " ++ pad2 d ++ ", " ++ toString y

/-- Whether the lowercased first string starts with the second, i.e.
Python `s.lower().startswith(pat)` for an ASCII pattern. -/
def listStartsWith : List Char → List Char → Bool
  | _, [] => true
  | [], _ :: _ => false
  | a :: as, b :: bs => a == b && listStartsWith as bs

def lowerStartsWith (s pat : String) : Bool :=
  listStartsWith (s.data.map Char.toLower) pat.data

/-- A value handed to `_fmt`: Python `None`, a number, or a non-numeric
string (`float` on it raises, so `_fmt` falls back to `str`). -/
inductive Value where
  | none
  | num (q : ℚ)
  | text (s : String)
deriving DecidableEq

/-- Two-decimal formatting of a rational, Python `f"{f:.2f}"`. -/
def fmt2 (q : ℚ) : String :=
  let n := roundHalfEven (q * 100)
  let a := n.natAbs
  (if n < 0 then "-" else "") ++ toString (a / 100) ++ "." ++ pad2 (a % 100)

/-- `_fmt` of `generate_pdf.py`: `None` renders as "-", a whole number as
`str(int(f))`, any other number with two decimals, anything `float`
rejects via `str`. -/
def fmt : Value → String
  | Value.none => "-"
  | Value.num q => if q.den = 1 then toString q.num else fmt2 q
  | Value.text s => s

/-- One entry of the labs list fed to `create_pdf_report`. -/
structure LabEntry where
  name : String
  value : Value
  unit : String
  range : Option String := Option.none
  reference : Option String := Option.none
deriving DecidableEq

/-- Python truthiness of `l.get(key)` for an optional string field:
absent and empty strings are falsy. -/
def optTruthy : Option String → Bool
  | some s => s ≠ ""
  | Option.none => false

/-- `have_range = any(l.get("range") for l in labs)`. -/
def haveRange (labs : List LabEntry) : Bool := labs.any fun l => optTruthy l.range

/-- `have_ref = any(l.get("reference") for l in labs)`. -/
def haveRef (labs : List LabEntry) : Bool := labs.any fun l => optTruthy l.reference

/-- The header row of the lab table. -/
def labHeaderRow (labs : List LabEntry) : List String :=
  ["Test", "Value", "Units"]
    ++ (if haveRange labs then ["Normal Range"] else [])
    ++ (if haveRef labs then ["Evidence / Notes"] else [])

/-- A data row of the lab table. -/
def labRowCells (hr hf : Bool) (l : LabEntry) : List String :=
  [l.name, fmt l.value, l.unit]
    ++ (if hr then [l.range.getD ""] else [])
    ++ (if hf then [l.reference.getD ""] else [])

/-- Column widths of the lab table. -/
def labWidths (labs : List LabEntry) : List ℕ :=
  [170, 60, 55]
    ++ (if haveRange labs then [95] else [])
    ++ (if haveRef labs then [150] else [])

/-- One meal-plan row. -/
structure MealRow where
  day : String
  breakfast : String
  lunch : String
  snack : String
  dinner : String
deriving DecidableEq

/-- The `patient_data` dict fed to `create_pdf_report`. -/
structure PatientData where
  name : String
  age : ℚ
  bmi : ℚ
  labs : List LabEntry
  criteria : List (String × Bool)
  alerts : List String
  meal_plan : List MealRow := []
  references : List String := []
deriving DecidableEq

/-- The keyword options of `create_pdf_report`, with their source
defaults; `whatsapp_qr` is the QR image path after `_find_file`, `none`
when absent or not found. -/
structure ReportOptions where
  doctor_line : String := "Dr. Arshad Mohammed, MD"
  clinic_name : String := "Clinics Northside"
  whatsapp_link : String := "https://wa.me/?text=I%20want%20to%20join%20the%20PCOS%20program"
  whatsapp_qr : Option String := Option.none
deriving DecidableEq

/-- An abstract flowable of the report body. -/
inductive Flowable where
  | para (text style : String)
  | spacer (h : ℕ)
  | heading (text : String)
  | table (rows : List (List String)) (widths : List ℕ)
  | image (path : String)
deriving DecidableEq

/-- `_bmi_note`'s classification chain on a numeric BMI. -/
def bmiClass (b : ℚ) : String :=
  if b < 18.5 then "Underweight"
  else if b < 23 then "Normal (Asian cut-off)"
  else if b < 25 then "Overweight (Asian)"
  else "Obese (Asian)"

def bmiNote (b : ℚ) : String :=
  "BMI classification: " ++ bmiClass b
    ++ ". Weight management can improve ovulation and insulin sensitivity in PCOS."

def rotterdamSentence : String :=
  "Diagnosis based on ≥2 Rotterdam criteria: oligo/anovulation, clinical/biochemical hyperandrogenism, and polycystic ovaries."

/-- The patient header block (date line, name/age/BMI, BMI note). -/
def headerPart (dateStr : String) (pd : PatientData) : List Flowable :=
  [Flowable.para ("Date: " ++ dateStr) "Normal",
   Flowable.spacer 4,
   Flowable.para ("<b>Patient Name:</b> " ++ fmt (Value.text pd.name)) "Normal",
   Flowable.para ("<b>Age:</b> " ++ fmt (Value.num pd.age)) "Normal",
   Flowable.para ("<b>BMI:</b> " ++ fmt (Value.num pd.bmi)) "Normal",
   Flowable.para (bmiNote pd.bmi) "Small",
   Flowable.spacer 8]

/-- The Diagnosis Summary block.  The source guards the Rotterdam sentence
with `isinstance(diagnosis, str) and diagnosis.lower().startswith("pcos")`;
the `isinstance` conjunct is always true here since `diag` is a string. -/
def diagnosisSummaryPart (diag ph : String) : List Flowable :=
  [Flowable.heading "Diagnosis Summary",
   Flowable.para ("<b>Assessment:</b> " ++ diag) "Normal",
   Flowable.para ("<b>PCOS Phenotype:</b> " ++ ph) "Normal"]
    ++ (if lowerStartsWith diag "pcos" then [Flowable.para rotterdamSentence "Small"] else [])
    ++ [Flowable.spacer 8]

def criteriaOrder : List String :=
  ["Oligo/anovulation", "Hyperandrogenism", "Polycystic ovaries"]

/-- The criteria table rows: header plus, for each key of the fixed order
present in the dict, a Yes/No row. -/
def criteriaRows (cr : List (String × Bool)) : List (List String) :=
  [["Criterion", "Met?"]]
    ++ criteriaOrder.filterMap fun k =>
        (cr.lookup k).map fun b => [k, if b then "Yes" else "No"]

/-- The Evidence Summary block: present iff the criteria dict or the
alerts list is non-empty. -/
def evidencePart (cr : List (String × Bool)) (al : List String) : List Flowable :=
  if cr ≠ [] ∨ al ≠ [] then
    [Flowable.heading "Evidence Summary"]
      ++ (if cr ≠ [] then [Flowable.table (criteriaRows cr) [300, 80], Flowable.spacer 6] else [])
      ++ (if al ≠ [] then
            [Flowable.para "<b>Clinical / Lab Alerts:</b>" "Normal"]
              ++ al.map (fun a => Flowable.para ("• " ++ fmt (Value.text a)) "Normal")
              ++ [Flowable.spacer 6]
          else [])
  else []

/-- The Lab Results block: present iff the labs list is non-empty. -/
def labTablePart (labs : List LabEntry) : List Flowable :=
  if labs ≠ [] then
    [Flowable.heading "Lab Results",
     Flowable.table (labHeaderRow labs :: labs.map (labRowCells (haveRange labs) (haveRef labs)))
       (labWidths labs),
     Flowable.spacer 8]
  else []

def nutritionNote : String :=
  "Low-GI, high-fiber focus. Portions may be adjusted to meet calorie targets and insulin-resistance goals."

/-- The Nutrition Plan block: present iff a meal plan was supplied. -/
def nutritionPart (mp : List MealRow) : List Flowable :=
  if mp ≠ [] then
    [Flowable.heading "Nutrition Plan (7 days)",
     Flowable.table
       ([["Day", "Breakfast", "Lunch", "Snack", "Dinner"]]
         ++ mp.map fun r => [r.day, r.breakfast, r.lunch, r.snack, r.dinner])
       [45, 120, 120, 90, 120],
     Flowable.spacer 6,
     Flowable.para nutritionNote "Small",
     Flowable.spacer 6]
  else []

/-- The Treatment Recommendations block: present iff notes are non-empty. -/
def treatmentPart (notes : List String) : List Flowable :=
  if notes ≠ [] then
    [Flowable.heading "Treatment Recommendations"]
      ++ notes.map (fun t => Flowable.para ("• " ++ fmt (Value.text t)) "Normal")
      ++ [Flowable.spacer 6]
  else []

/-- The Next Steps block: three fixed bullets, the third interpolating the
follow-up date. -/
def nextStepsPart (followUp : String) : List Flowable :=
  [Flowable.heading "Next Steps",
   Flowable.para "• Recheck key labs (glucose/insulin, lipids, vitamin D) and cycles in 3 months." "Normal",
   Flowable.para "• Prioritize sleep (7–8h), resistance training 2–3x/week, and stress reduction." "Normal",
   Flowable.para ("• Suggested follow-up date: " ++ followUp ++ ".") "Normal",
   Flowable.spacer 8]

/-- The References block: present iff a references list was supplied. -/
def referencesPart (refs : List String) : List Flowable :=
  if refs ≠ [] then
    [Flowable.heading "References"]
      ++ (refs.enum.map fun ir => Flowable.para (toString (ir.1 + 1) ++ ". " ++ ir.2) "Small")
      ++ [Flowable.spacer 6]
  else []

/-- The closing block: doctor and clinic lines, the WhatsApp link when
non-empty, the QR image when a path was found. -/
def closingPart (opts : ReportOptions) : List Flowable :=
  [Flowable.para opts.doctor_line "Normal", Flowable.para opts.clinic_name "Normal"]
    ++ (if opts.whatsapp_link ≠ "" then
          [Flowable.spacer 4,
           Flowable.para ("<a href=\x27" ++ opts.whatsapp_link
             ++ "\x27>📲 Join Coaching on WhatsApp</a>") "Normal"]
        else [])
    ++ (match opts.whatsapp_qr with
        | some path => [Flowable.spacer 6, Flowable.image path]
        | Option.none => [])

/-- The flowable list built by `create_pdf_report`.  `today` is the value
of `datetime.date.today()` at call time, as an epoch-day count: the source
reads the system clock at two points inside the function (the report date
and the follow-up date `today + 90` days). -/
def createPdfFlow (pd : PatientData) (diag ph : String) (treatment_notes : List String)
    (opts : ReportOptions) (today : ℕ) : List Flowable :=
  headerPart (fmtLongDate today) pd
    ++ diagnosisSummaryPart diag ph
    ++ evidencePart pd.criteria pd.alerts
    ++ labTablePart pd.labs
    ++ nutritionPart pd.meal_plan
    ++ treatmentPart treatment_notes
    ++ nextStepsPart (fmtShortDate (today + 90))
    ++ referencesPart pd.references
    ++ closingPart opts

/-- The declared parameter names of `create_pdf_report` in
`generate_pdf.py`, in source order (positional, then keyword-only). -/
def createPdfReportParams : List String :=
  ["filename", "patient_data", "diagnosis", "phenotype", "treatment_notes",
   "logo_path", "clinic_name", "doctor_line", "footer_text", "whatsapp_link",
   "whatsapp_qr_path"]

/-! ## Sample inputs used by witnesses and counterexamples -/

/-- The spec's all-negative example patient: regular cycles, ten cycles a
year, no clinical signs, low androgens, ultrasound "No". -/
def basePatient : PatientInput :=
  { name := "Asha", age := 30, weight := 60, height := 160,
    irregular_cycles := "No", cycle_frequency := 10, prolonged_bleeding := "No",
    acne := false, hirsutism := false, alopecia := false,
    pcos_ovaries := "No", total_testosterone := 10, dheas := 10,
    fasting_glucose := 96, fasting_insulin := 0, tsh := 1 }

/-- A minimal assembler input with no optional data. -/
def samplePD : PatientData :=
  { name := "Asha", age := 30, bmi := 22, labs := [], criteria := [], alerts := [] }

/-- A sample lab entry without range or reference. -/
def sampleLab : LabEntry := { name := "TSH", value := Value.num 2, unit := "µIU/mL" }

/-- `samplePD` with one lab entry. -/
def labsPD : PatientData := { samplePD with labs := [sampleLab] }

/-- A sample progress-log row. -/
def sampleRow : ProgressRow :=
  { date := "2025-01-01", name := "Asha", weight := 60, bmi := 22,
    cycle_length := 6, homa_ir := 3, tsh := 2 }

end MyPCOS

namespace MyPCOS

/-! ## Helper lemmas (section membership in the flow) -/

theorem labHeading_notin_headerPart (d : String) (pd : PatientData) :
    Flowable.heading "Lab Results" ∉ headerPart d pd := by
  simp [headerPart]

theorem labHeading_notin_diagPart (dg ph : String) :
    Flowable.heading "Lab Results" ∉ diagnosisSummaryPart dg ph := by
  unfold diagnosisSummaryPart
  split_ifs <;> simp

theorem labHeading_notin_evidencePart (cr : List (String × Bool)) (al : List String) :
    Flowable.heading "Lab Results" ∉ evidencePart cr al := by
  unfold evidencePart
  split_ifs <;> simp [List.mem_map]

theorem labHeading_notin_nutritionPart (mp : List MealRow) :
    Flowable.heading "Lab Results" ∉ nutritionPart mp := by
  unfold nutritionPart
  split_ifs <;> simp

theorem labHeading_notin_treatmentPart (notes : List String) :
    Flowable.heading "Lab Results" ∉ treatmentPart notes := by
  unfold treatmentPart
  split_ifs <;> simp [List.mem_map]

theorem labHeading_notin_nextStepsPart (f : String) :
    Flowable.heading "Lab Results" ∉ nextStepsPart f := by
  simp [nextStepsPart]

theorem labHeading_notin_referencesPart (refs : List String) :
    Flowable.heading "Lab Results" ∉ referencesPart refs := by
  unfold referencesPart
  split_ifs <;> simp [List.mem_map]

theorem labHeading_notin_closingPart (opts : ReportOptions) :
    Flowable.heading "Lab Results" ∉ closingPart opts := by
  unfold closingPart
  cases hq : opts.whatsapp_qr <;> split_ifs <;> simp [hq]

theorem labHeading_mem_labTablePart (labs : List LabEntry) :
    Flowable.heading "Lab Results" ∈ labTablePart labs ↔ labs ≠ [] := by
  unfold labTablePart
  split_ifs with h <;> simp [h]

/-! ## Claims -/

/-- Claim C1: for every patient input the three Rotterdam criteria are
computed exactly as: oligo/anovulation iff `irregular_cycles = "Yes"` or
`cycle_frequency < 9`; hyperandrogenism iff acne, hirsutism, alopecia,
`total_testosterone > 50` or `dheas > 350`; polycystic ovaries iff the
ultrasound finding equals "Yes", so "Not Done" gives the same result as
"No". -/
theorem c1_rotterdam_criteria (p : PatientInput) :
    (oligoAnovulation p = true ↔ (p.irregular_cycles = "Yes" ∨ p.cycle_frequency < 9))
    ∧ (hyperandrogenism p = true ↔
        (p.acne = true ∨ p.hirsutism = true ∨ p.alopecia = true
          ∨ p.total_testosterone > 50 ∨ p.dheas > 350))
    ∧ (polycysticOvaries p = true ↔ p.pcos_ovaries = "Yes")
    ∧ (p.pcos_ovaries = "Not Done" →
        polycysticOvaries p = polycysticOvaries { p with pcos_ovaries := "No" }) := by
  refine ⟨?_, ?_, ?_, ?_⟩
  · simp [oligoAnovulation]
  · simp [hyperandrogenism, or_assoc]
  · simp [polycysticOvaries]
  · intro h; simp [polycysticOvaries, h]

/-- Witness for C1 at a concrete patient whose ultrasound finding is
"Not Done". -/
theorem c1_rotterdam_criteria_witness :
    polycysticOvaries { basePatient with pcos_ovaries := "Not Done" }
      = polycysticOvaries
          { { basePatient with pcos_ovaries := "Not Done" } with pcos_ovaries := "No" } :=
  (c1_rotterdam_criteria { basePatient with pcos_ovaries := "Not Done" }).2.2.2 rfl

/-- Claim C2: the verdict is "PCOS Likely" iff at least two of the three
criteria hold, and "PCOS Unlikely" otherwise. -/
theorem c2_verdict (p : PatientInput) :
    (diagnosis p = "PCOS Likely" ↔ 2 ≤ numPositive p)
    ∧ (diagnosis p = "PCOS Unlikely" ↔ numPositive p < 2) := by
  unfold diagnosis
  split_ifs with h
  · simp_all
  · simp_all

/-- Claim C3: the phenotype follows the fixed priority chain evaluated
only when the verdict is Likely (A when all three criteria hold, else B
for O∧H, else C for H∧P, else D for O∧P), and it is "Not applicable" iff
the verdict is "PCOS Unlikely"; in particular it is A iff all three
criteria hold.  The five iffs below determine the whole chain, priority
included. -/
theorem c3_phenotype (p : PatientInput) :
    (phenotype p = "Not applicable" ↔ diagnosis p = "PCOS Unlikely")
    ∧ (phenotype p = "Phenotype A" ↔
        (oligoAnovulation p = true ∧ hyperandrogenism p = true ∧ polycysticOvaries p = true))
    ∧ (phenotype p = "Phenotype B" ↔
        (oligoAnovulation p = true ∧ hyperandrogenism p = true ∧ polycysticOvaries p = false))
    ∧ (phenotype p = "Phenotype C" ↔
        (hyperandrogenism p = true ∧ polycysticOvaries p = true ∧ oligoAnovulation p = false))
    ∧ (phenotype p = "Phenotype D" ↔
        (oligoAnovulation p = true ∧ polycysticOvaries p = true ∧ hyperandrogenism p = false)) := by
  rcases ho : oligoAnovulation p <;> rcases hh : hyperandrogenism p <;>
    rcases hpc : polycysticOvaries p <;>
      simp [phenotype, phenotypeOf, numPositive, diagnosis, ho, hh, hpc]

/-- Claim C4: HOMA-IR is `(fasting_glucose × fasting_insulin) / 405`
rounded to two decimals when the insulin is non-zero, and 0 when it is
zero; in particular HOMA-IR(96, 16.3) = 3.86. -/
theorem c4_homa_ir (g i : ℚ) :
    (i ≠ 0 → homaIr g i = pythonRound2 (g * i / 405))
    ∧ (i = 0 → homaIr g i = 0)
    ∧ homaIr 96 (163/10) = 386/100 := by
  refine ⟨fun h => ?_, fun h => ?_, ?_⟩
  · simp [homaIr, h]
  · simp [homaIr, h]
  · unfold homaIr pythonRound2 roundHalfEven
    norm_num

/-- Witness for C4: both branches discharged at concrete inputs. -/
theorem c4_homa_ir_witness :
    homaIr 96 (163/10) = pythonRound2 (96 * (163/10) / 405) ∧ homaIr 50 0 = 0 :=
  ⟨(c4_homa_ir 96 (163/10)).1 (by norm_num), (c4_homa_ir 50 0).2.1 rfl⟩

/-- Claim C5: the alerts list holds exactly the alerts whose threshold
check holds, in the fixed order insulin-resistance, elevated-TSH,
possible-biochemical-hyperandrogenism, and nothing else (it is a sublist
of the three fixed strings, with membership matching each check). -/
theorem c5_alerts (p : PatientInput) :
    (alerts p).Sublist [insulinAlert, tshAlert, hyperandrogenismAlert]
    ∧ (insulinAlert ∈ alerts p ↔ homaIrOf p > 5/2)
    ∧ (tshAlert ∈ alerts p ↔ p.tsh > 4)
    ∧ (hyperandrogenismAlert ∈ alerts p ↔ (p.total_testosterone > 70 ∨ p.dheas > 350)) := by
  unfold alerts
  refine ⟨?_, ?_, ?_, ?_⟩ <;> split_ifs <;>
    simp_all [insulinAlert, tshAlert, hyperandrogenismAlert]

/-- Counterexample to claim C6: for the all-negative patient the verdict
is "PCOS Unlikely", yet the fixed Rotterdam sentence is present in the
assembled report, because the source guards it with
`diagnosis.lower().startswith("pcos")` and "PCOS Unlikely" matches. -/
theorem c6_counterexample :
    diagnosis basePatient = "PCOS Unlikely"
    ∧ Flowable.para rotterdamSentence "Small"
        ∈ createPdfFlow samplePD (diagnosis basePatient) (phenotype basePatient) [] {} 20000 := by
  have h1 : diagnosis basePatient = "PCOS Unlikely" := by decide
  have h2 : phenotype basePatient = "Not applicable" := by decide
  have hs : lowerStartsWith "PCOS Unlikely" "pcos" = true := by decide
  refine ⟨h1, ?_⟩
  rw [h1, h2]
  simp [createPdfFlow, diagnosisSummaryPart, hs, List.mem_append]

/-- Claim C6 as amended: the Diagnosis Summary section is always present
in the report and carries the verdict and phenotype, and the fixed
explanatory sentence is included iff the lowercased diagnosis string
starts with "pcos" — which holds for both evaluator verdicts, so the
sentence also appears when the verdict is Unlikely. -/
theorem c6_diagnosis_summary (pd : PatientData) (diag ph : String) (notes : List String)
    (opts : ReportOptions) (today : ℕ) :
    List.IsInfix (diagnosisSummaryPart diag ph) (createPdfFlow pd diag ph notes opts today)
    ∧ Flowable.heading "Diagnosis Summary" ∈ diagnosisSummaryPart diag ph
    ∧ Flowable.para ("<b>Assessment:</b> " ++ diag) "Normal" ∈ diagnosisSummaryPart diag ph
    ∧ Flowable.para ("<b>PCOS Phenotype:</b> " ++ ph) "Normal" ∈ diagnosisSummaryPart diag ph
    ∧ (Flowable.para rotterdamSentence "Small" ∈ diagnosisSummaryPart diag ph
        ↔ lowerStartsWith diag "pcos" = true)
    ∧ (∀ p : PatientInput, lowerStartsWith (diagnosis p) "pcos" = true) := by
  refine ⟨?_, ?_, ?_, ?_, ?_, ?_⟩
  · exact ⟨headerPart (fmtLongDate today) pd,
      evidencePart pd.criteria pd.alerts ++ labTablePart pd.labs
        ++ nutritionPart pd.meal_plan ++ treatmentPart notes
        ++ nextStepsPart (fmtShortDate (today + 90)) ++ referencesPart pd.references
        ++ closingPart opts,
      by simp [createPdfFlow, List.append_assoc]⟩
  · simp [diagnosisSummaryPart]
  · simp [diagnosisSummaryPart]
  · simp [diagnosisSummaryPart]
  · unfold diagnosisSummaryPart
    split_ifs with h <;> simp [h]
  · intro p
    unfold diagnosis
    split_ifs <;> decide

/-- Counterexample to claim C7: `create_pdf_report` takes no date
parameter — "today" is not among its declared parameters — and two calls
with all declared inputs equal but a different ambient system date
produce different section sequences. -/
theorem c7_counterexample :
    "today" ∉ createPdfReportParams
    ∧ createPdfFlow samplePD "PCOS Likely" "Phenotype A" [] {} 20000
        ≠ createPdfFlow samplePD "PCOS Likely" "Phenotype A" [] {} 20001 := by
  refine ⟨by decide, fun h => ?_⟩
  have h1 := congrArg (fun l => l.head?) h
  simp [createPdfFlow, headerPart] at h1
  exact absurd h1 (by decide)

/-- Claim C7 as amended: the assembler is deterministic given its inputs
plus the ambient current date, which it reads from the system clock
inside the function (it is not a parameter); the date is used only
through the report-date rendering and the follow-up date rendered from
`today + 90` days. -/
theorem c7_determinism (pd : PatientData) (diag ph : String) (notes : List String)
    (opts : ReportOptions) (t t' : ℕ) :
    (t = t' → createPdfFlow pd diag ph notes opts t = createPdfFlow pd diag ph notes opts t')
    ∧ (fmtLongDate t = fmtLongDate t' → fmtShortDate (t + 90) = fmtShortDate (t' + 90) →
        createPdfFlow pd diag ph notes opts t = createPdfFlow pd diag ph notes opts t') := by
  constructor
  · intro h; rw [h]
  · intro h1 h2
    unfold createPdfFlow
    rw [h1, h2]

/-- Witness for C7 at a concrete invocation pair. -/
theorem c7_determinism_witness :
    createPdfFlow samplePD "PCOS Likely" "Phenotype A" [] {} 20000
      = createPdfFlow samplePD "PCOS Likely" "Phenotype A" [] {} 20000 :=
  (c7_determinism samplePD "PCOS Likely" "Phenotype A" [] {} 20000 20000).1 rfl

/-- Counterexample to claim C8: with an empty name the auto-save block
leaves the log unchanged and signals nothing — the write is silently
skipped — whereas the spec-modelled checked write returns a precondition
violation. -/
theorem c8_counterexample :
    autoSaveLog "2025-06-01" "" 60 22 6 3 2 [sampleRow] = [sampleRow]
    ∧ progressWriteChecked "2025-06-01" "" 60 22 6 3 2 [sampleRow]
        = Except.error "precondition violation: empty identity name" := by
  constructor
  · simp [autoSaveLog]
  · simp [progressWriteChecked]

/-- Claim C8 as amended: a Progress Store write attempt with an empty
name is silently skipped — no row is persisted and no error is signaled
(the source guards the block with `if name and weight:`) — while report
generation itself still succeeds for an empty name. -/
theorem c8_silent_skip :
    (∀ (today : String) (w b : ℚ) (c : ℤ) (hm ts : ℚ) (log : List ProgressRow),
        autoSaveLog today "" w b c hm ts log = log)
    ∧ (∀ (pd : PatientData) (diag ph : String) (notes : List String)
          (opts : ReportOptions) (day : ℕ), pd.name = "" →
        Flowable.heading "Diagnosis Summary" ∈ createPdfFlow pd diag ph notes opts day) := by
  constructor
  · intro today w b c hm ts log
    simp [autoSaveLog]
  · intro pd diag ph notes opts day _
    simp [createPdfFlow, diagnosisSummaryPart, List.mem_append]

/-- Witness for C8 at a concrete empty-name report request. -/
theorem c8_silent_skip_witness :
    Flowable.heading "Diagnosis Summary"
      ∈ createPdfFlow { samplePD with name := "" } "PCOS Unlikely" "Not applicable" [] {} 20000 :=
  c8_silent_skip.2 { samplePD with name := "" } "PCOS Unlikely" "Not applicable" [] {} 20000 rfl

/-- Claim C9: the Lab Results table is present in the report iff the labs
list is non-empty; its columns are always Test, Value, Units, plus Normal
Range iff some entry carries a range and Evidence / Notes iff some entry
carries a reference (3, 4 or 5 columns); each row renders its value with
`_fmt`: whole numbers as integers, other numbers with two decimals,
non-numeric values passed through. -/
theorem c9_lab_table (pd : PatientData) (diag ph : String) (notes : List String)
    (opts : ReportOptions) (today : ℕ) :
    (Flowable.heading "Lab Results" ∈ createPdfFlow pd diag ph notes opts today ↔ pd.labs ≠ [])
    ∧ labHeaderRow pd.labs
        = ["Test", "Value", "Units"]
            ++ (if haveRange pd.labs then ["Normal Range"] else [])
            ++ (if haveRef pd.labs then ["Evidence / Notes"] else [])
    ∧ (labHeaderRow pd.labs).length
        = 3 + (if haveRange pd.labs then 1 else 0) + (if haveRef pd.labs then 1 else 0)
    ∧ (∀ l ∈ pd.labs,
        (labRowCells (haveRange pd.labs) (haveRef pd.labs) l)[1]? = some (fmt l.value))
    ∧ (∀ q : ℚ, q.den = 1 → fmt (Value.num q) = toString q.num)
    ∧ (∀ q : ℚ, q.den ≠ 1 → fmt (Value.num q) = fmt2 q)
    ∧ (∀ s : String, fmt (Value.text s) = s) := by
  refine ⟨?_, rfl, ?_, ?_, ?_, ?_, fun s => rfl⟩
  · rw [← labHeading_mem_labTablePart pd.labs]
    simp [createPdfFlow, List.mem_append,
      labHeading_notin_headerPart, labHeading_notin_diagPart, labHeading_notin_evidencePart,
      labHeading_notin_nutritionPart, labHeading_notin_treatmentPart,
      labHeading_notin_nextStepsPart, labHeading_notin_referencesPart,
      labHeading_notin_closingPart]
  · unfold labHeaderRow
    split_ifs <;> rfl
  · intro l _
    simp [labRowCells]
  · intro q h
    simp [fmt, h]
  · intro q h
    simp [fmt, h]

/-- Witness for C9 at a one-entry labs list and concrete values. -/
theorem c9_lab_table_witness :
    (Flowable.heading "Lab Results"
        ∈ createPdfFlow labsPD "PCOS Likely" "Phenotype A" [] {} 20000 ↔ labsPD.labs ≠ [])
    ∧ (labRowCells (haveRange labsPD.labs) (haveRef labsPD.labs) sampleLab)[1]?
        = some (fmt sampleLab.value)
    ∧ fmt (Value.num 3) = toString (3:ℚ).num
    ∧ fmt (Value.num (1/2)) = fmt2 (1/2) :=
  ⟨(c9_lab_table labsPD "PCOS Likely" "Phenotype A" [] {} 20000).1,
   (c9_lab_table labsPD "PCOS Likely" "Phenotype A" [] {} 20000).2.2.2.1 sampleLab
     (by simp [labsPD]),
   (c9_lab_table labsPD "PCOS Likely" "Phenotype A" [] {} 20000).2.2.2.2.1 3 (by norm_num),
   (c9_lab_table labsPD "PCOS Likely" "Phenotype A" [] {} 20000).2.2.2.2.2.1 (1/2)
     (by norm_num)⟩

/-- Claim C10: the evaluator's phenotype is never "Unclassified": with
three criteria and the two-of-three verdict gate, every reachable case
maps to A, B, C, D or "Not applicable". -/
theorem c10_no_unclassified (p : PatientInput) : phenotype p ≠ "Unclassified" := by
  rcases ho : oligoAnovulation p <;> rcases hh : hyperandrogenism p <;>
    rcases hpc : polycysticOvaries p <;>
      simp [phenotype, phenotypeOf, numPositive, ho, hh, hpc]

end MyPCOS
